import Mathlib

/-!
Verification of the client-side schema layer of a dataset-management SDK
(`dataverse_sdk/schemas/client.py`).

The Python module defines pydantic (v1) models — AttributeOption, Attribute,
Sensor, OntologyClass, Ontology, DataConfig, Project, Dataset — together with
field validators and the `Project.create_dataset` operation that delegates to a
process-wide client collaborator.

Shallow embedding conventions:
* Construction of a pydantic model from input data is embedded as a function
  returning `Except PyExc entity`; pydantic's `ValidationError` (which carries
  an error location path) is `PyExc.validationError loc msg`.  The embedding
  reports the first error (pydantic collects all of them); every claim below
  only depends on whether construction fails and on the location of the
  reported error.
* Input data (Python dicts / JSON-ish values) is the inductive `JVal`; a model
  field of type `Optional[T] = None` is missing-tolerant, a field without a
  default is required.  Pydantic's lenient scalar coercions (e.g. int-to-str)
  are not modelled: a str field accepts exactly `JVal.str`, etc.  Python floats
  are not modelled (no claim mentions them), so the `Union[str, float, int,
  bool]` of `AttributeOption.value` is embedded without the float arm.
* `config._client`, the enumerations of `schemas/common.py` and the exception
  class of `exceptions/client.py` are not part of the given source file; where
  a definition stands in for them it is marked `Modelled from the spec:`.
* Python's `re` word characters are modelled for the ASCII range
  (alphanumerics and underscore); all inputs in question are ASCII.
-/

/-- A JSON-like value: the shape of the raw input data a pydantic model is
constructed from and of the output of `.dict()` re-serialization. -/
inductive JVal where
  | null
  | bool (b : Bool)
  | int (n : Int)
  | str (s : String)
  | arr (xs : List JVal)
  | obj (kvs : List (String × JVal))

/-- Embeds the Python exceptions observable from the schema layer:
pydantic's `ValidationError` (with its location path), the SDK's
`ClientConnectionError` (Modelled from the spec: `exceptions/client.py` is not
in the given source; §7 describes it as carrying a message that wraps the
underlying cause), and any other exception, abstracted to its message. -/
inductive PyExc where
  | validationError (loc : List String) (msg : String)
  | clientConnectionError (msg : String)
  | other (msg : String)
deriving DecidableEq

/-- Message rendering of an exception, standing in for Python `str(e)` when a
caught exception is interpolated into another message. -/
def PyExc.toMessage : PyExc → String
  | .validationError _ msg => msg
  | .clientConnectionError msg => msg
  | .other msg => msg

/-- True exactly for a `ClientConnectionError` outcome of a call. -/
def isClientConnectionErrorResult : Except PyExc α → Bool
  | .error (.clientConnectionError _) => true
  | _ => false

/-- True exactly for a `ValidationError` outcome of a call. -/
def isValidationErrorResult : Except PyExc α → Bool
  | .error (.validationError _ _) => true
  | _ => false

/-- Prefix a field name onto the location path of a validation error, the way
pydantic extends the error location when a nested model fails inside a field. -/
def prefixField (k : String) : PyExc → PyExc
  | .validationError loc msg => .validationError (k :: loc) msg
  | e => e

/-- Prefix a list index onto the location path of a validation error, the way
pydantic records the index of the failing item of a list field. -/
def prefixIdx (i : Nat) : PyExc → PyExc
  | .validationError loc msg => .validationError (toString i :: loc) msg
  | e => e

/-! ### Enumerations

`DataSource` is defined in the given source file.  The remaining enumerations
are imported by it from `schemas/common.py`, which is not part of the given
source; they are modelled from the spec (§4.1: closed sets of named string
constants, unrecognized strings rejected). -/

/-- The `DataSource(str, Enum)` of the source: values `azure`, `aws`, `sdk`. -/
inductive DataSource where
  | azure
  | aws
  | sdk
deriving DecidableEq

/-- String value of a `DataSource` member. -/
def DataSource.val : DataSource → String
  | .azure => "azure"
  | .aws => "aws"
  | .sdk => "sdk"

/-- Parse a string into a `DataSource` member; unrecognized strings yield
`none` (pydantic then raises a ValidationError for the field). -/
def DataSource.ofString : String → Option DataSource
  | "azure" => some .azure
  | "aws" => some .aws
  | "sdk" => some .sdk
  | _ => none

/-- Modelled from the spec: `AttributeType` of `schemas/common.py` (§4.1
"AttributeKind (includes OPTION among others)", glossary: text, number,
single/multi option). -/
inductive AttributeType where
  | option
  | text
  | number
  | boolean
deriving DecidableEq

/-- String value of an `AttributeType` member. -/
def AttributeType.val : AttributeType → String
  | .option => "option"
  | .text => "text"
  | .number => "number"
  | .boolean => "boolean"

/-- Parse a string into an `AttributeType` member. -/
def AttributeType.ofString : String → Option AttributeType
  | "option" => some .option
  | "text" => some .text
  | "number" => some .number
  | "boolean" => some .boolean
  | _ => none

/-- Modelled from the spec: `SensorType` of `schemas/common.py` (§4.1
"SensorKind", glossary: camera, lidar). -/
inductive SensorType where
  | camera
  | lidar
deriving DecidableEq

/-- String value of a `SensorType` member. -/
def SensorType.val : SensorType → String
  | .camera => "camera"
  | .lidar => "lidar"

/-- Parse a string into a `SensorType` member. -/
def SensorType.ofString : String → Option SensorType
  | "camera" => some .camera
  | "lidar" => some .lidar
  | _ => none

/-- Modelled from the spec: `DatasetType` of `schemas/common.py` (§4.1
"DatasetKind"; §8 example value `2d_bounding_box`). -/
inductive DatasetType where
  | boundingBox2d
  | raw
deriving DecidableEq

/-- String value of a `DatasetType` member. -/
def DatasetType.val : DatasetType → String
  | .boundingBox2d => "2d_bounding_box"
  | .raw => "raw"

/-- Parse a string into a `DatasetType` member. -/
def DatasetType.ofString : String → Option DatasetType
  | "2d_bounding_box" => some .boundingBox2d
  | "raw" => some .raw
  | _ => none

/-- Modelled from the spec: `DatasetStatus` of `schemas/common.py` (§4.1; §8
example value `processing`; §3: assigned by the remote system). -/
inductive DatasetStatus where
  | processing
  | ready
deriving DecidableEq

/-- String value of a `DatasetStatus` member. -/
def DatasetStatus.val : DatasetStatus → String
  | .processing => "processing"
  | .ready => "ready"

/-- Parse a string into a `DatasetStatus` member. -/
def DatasetStatus.ofString : String → Option DatasetStatus
  | "processing" => some .processing
  | "ready" => some .ready
  | _ => none

/-- Modelled from the spec: `AnnotationFormat` of `schemas/common.py` (§4.1;
§8 example value `coco`). -/
inductive AnnotationFormat where
  | coco
  | kitti
deriving DecidableEq

/-- String value of an `AnnotationFormat` member. -/
def AnnotationFormat.val : AnnotationFormat → String
  | .coco => "coco"
  | .kitti => "kitti"

/-- Parse a string into an `AnnotationFormat` member. -/
def AnnotationFormat.ofString : String → Option AnnotationFormat
  | "coco" => some .coco
  | "kitti" => some .kitti
  | _ => none

/-- Modelled from the spec: `OntologyImageType` of `schemas/common.py` (§4.1
"ontology media kinds"; concrete values are not named by the spec). -/
inductive OntologyImageType where
  | image
deriving DecidableEq

/-- String value of an `OntologyImageType` member. -/
def OntologyImageType.val : OntologyImageType → String
  | .image => "image"

/-- Parse a string into an `OntologyImageType` member. -/
def OntologyImageType.ofString : String → Option OntologyImageType
  | "image" => some .image
  | _ => none

/-- Modelled from the spec: `OntologyPcdType` of `schemas/common.py` (§4.1
"ontology media kinds"; concrete values are not named by the spec). -/
inductive OntologyPcdType where
  | pcd
deriving DecidableEq

/-- String value of an `OntologyPcdType` member. -/
def OntologyPcdType.val : OntologyPcdType → String
  | .pcd => "pcd"

/-- Parse a string into an `OntologyPcdType` member. -/
def OntologyPcdType.ofString : String → Option OntologyPcdType
  | "pcd" => some .pcd
  | _ => none

/-! ### The color validator of `OntologyClass`

Source:
```
@validator("color", each_item=True)
def color_validator(cls, value):
    if not value.startswith("#") or not re.search(
        r"\b[a-zA-Z0-9]{6}\b", value.lstrip("#")
    ):
        raise ValueError(...)
    return value
```
(pydantic v1 runs an `each_item` post-validator on the field value itself when
the field has no sub-fields, so the validator applies to the whole string.)

The regex `\b[a-zA-Z0-9]{6}\b` is embedded as a direct scanner: a match is six
consecutive ASCII alphanumerics preceded and followed by a word boundary,
where word characters are ASCII alphanumerics and the underscore. -/

/-- Word character of Python's `re` (`\w`, hence also `\b`), ASCII range:
alphanumeric or underscore. -/
def isWordChar (c : Char) : Bool := c.isAlphanum || c == '_'

/-- Whether the position just before the list is a word boundary for a match
that starts with a word character: true at the start of the string or after a
non-word character (`prev` is the preceding character, if any). -/
def boundaryBefore : Option Char → Bool
  | none => true
  | some c => !isWordChar c

/-- Whether the position at the head of the list is a word boundary for a
match that ended with a word character: true at the end of the string or
before a non-word character. -/
def nonWordStart : List Char → Bool
  | [] => true
  | c :: _ => !isWordChar c

/-- Whether `\b[a-zA-Z0-9]{6}\b` matches at the start of `l` (the leading `\b`
against the previous character is checked by the caller): six ASCII
alphanumerics followed by a word boundary. -/
def startsWith6 (l : List Char) : Bool :=
  ((l.take 6).length == 6) && (l.take 6).all Char.isAlphanum && nonWordStart (l.drop 6)

/-- Scanner for `re.search(r"\b[a-zA-Z0-9]{6}\b", s)`: try a match at every
position, carrying the previous character for the leading word boundary. -/
def searchAux : Option Char → List Char → Bool
  | _, [] => false
  | prev, c :: rest =>
    (boundaryBefore prev && startsWith6 (c :: rest)) || searchAux (some c) rest

/-- `re.search(r"\b[a-zA-Z0-9]{6}\b", s)` as a Boolean: does the pattern match
anywhere in `s`? -/
def reSearchWord6 (s : List Char) : Bool := searchAux none s

/-- Python `value.startswith("#")`. -/
def startsWithHash : List Char → Bool
  | '#' :: _ => true
  | _ => false

/-- Python `value.lstrip("#")`: drop every leading `#`. -/
def lstripHash (s : List Char) : List Char := s.dropWhile (fun c => c == '#')

/-- The `color_validator` of `OntologyClass`, embedding the source condition
`not value.startswith("#") or not re.search(r"\b[a-zA-Z0-9]{6}\b",
value.lstrip("#"))`. -/
def color_validator (value : String) : Except PyExc String :=
  if !startsWithHash value.data || !reSearchWord6 (lstripHash value.data) then
    .error (.validationError ["color"]
      ("Color field needs starts with `#` and has 6 digits behind it, get : " ++ value))
  else
    .ok value

/-! ### Entity records

One structure per pydantic model, with the source's field names and order.
Models whose `Config` sets `use_enum_values = True` (Attribute, Sensor,
Ontology) store the enum's string value in Python; the embedding keeps the
typed member and renders its string value on serialization, which is
observationally the same for every property below. -/

/-- The `value: Union[str, float, int, bool]` of `AttributeOption` (the float
arm is not modelled, see the header). -/
inductive AttrValue where
  | str (s : String)
  | int (n : Int)
  | bool (b : Bool)
deriving DecidableEq

structure AttributeOption where
  id : Option Int := none
  value : AttrValue
deriving DecidableEq

structure Attribute where
  id : Option Int := none
  name : String
  options : Option (List AttributeOption) := none
  type : AttributeType
deriving DecidableEq

structure Sensor where
  id : Option Int := none
  name : String
  type : SensorType
deriving DecidableEq

structure OntologyClass where
  id : Option Int := none
  name : String
  color : String
  rank : Int
  attributes : Option (List Attribute) := none
deriving DecidableEq

structure Ontology where
  id : Option Int := none
  name : String
  image_type : Option OntologyImageType := none
  pcd_type : Option OntologyPcdType := none
  classes : Option (List OntologyClass) := none
deriving DecidableEq

/-- `DataConfig`: its `Config` sets `extra = "allow"`, so unknown input keys
are kept; the embedding stores them in the sidecar field `extra` (§9 of the
spec describes open schemas exactly this way). -/
structure DataConfig where
  storage_url : String
  container_name : Option String
  sas_token : Option String
  data_folder : String
  sequential : Bool
  generate_metadata : Bool
  description : Option String
  type : String
  annotation_format : String
  extra : List (String × JVal)

structure Project where
  id : Option Int := none
  name : String
  description : Option String := none
  ego_car : Option String := none
  ontology : Ontology
  sensors : List Sensor
deriving DecidableEq

/-- `Dataset`: its `Config` sets `extra = "allow"`; unknown input keys are
kept in the sidecar field `extra`. -/
structure Dataset where
  id : Option Int := none
  project : Project
  sensors : List Sensor
  name : String
  type : DatasetType
  data_source : DataSource
  annotation_format : AnnotationFormat
  status : DatasetStatus
  sequential : Bool := false
  generate_metadata : Bool := false
  description : Option String := none
  file_count : Option Int := none
  image_count : Option Int := none
  pcd_count : Option Int := none
  created_by : Option Int := none
  container_name : Option String := none
  storage_url : Option String := none
  extra : List (String × JVal) := []

/-! ### The `option_data_validator` of `Attribute`

Source:
```
@validator("type")
def option_data_validator(cls, value, values, **kwargs):
    if value == AttributeType.OPTION and not values.get("options"):
        raise ValueError("Need to assign value for `options` "
                         + "if the Attribute type is option")
    return value
```
Fields are validated in definition order (id, name, options, type), so
`values` holds the already-parsed `options` when `type` is validated.
`not values.get("options")` is true for a missing, `None`, or empty list. -/

/-- Python truthiness test `not values.get("options")` on the parsed
`options` field. -/
def optionsFalsy : Option (List AttributeOption) → Bool
  | none => true
  | some l => l.isEmpty

/-- The `option_data_validator` of `Attribute`. -/
def option_data_validator (value : AttributeType)
    (options : Option (List AttributeOption)) : Except PyExc AttributeType :=
  if value = AttributeType.option ∧ optionsFalsy options then
    .error (.validationError ["type"]
      ("Need to assign value for `options` " ++ "if the Attribute type is option"))
  else
    .ok value

/-- Construction of an `Attribute` from already-parsed field values: runs the
`option_data_validator` (the only validator of the model). -/
def Attribute.make (id : Option Int) (name : String)
    (options : Option (List AttributeOption)) (type : AttributeType) :
    Except PyExc Attribute :=
  match option_data_validator type options with
  | .error e => .error e
  | .ok ty => .ok ⟨id, name, options, ty⟩

/-- Construction of an `OntologyClass` from already-parsed field values: runs
`color_validator` on the `color` field (the only validator of the model). -/
def OntologyClass.make (id : Option Int) (name : String) (color : String)
    (rank : Int) (attributes : Option (List Attribute)) :
    Except PyExc OntologyClass :=
  match color_validator color with
  | .error e => .error e
  | .ok c => .ok ⟨id, name, c, rank, attributes⟩

/-! ### `Project.create_dataset`

Source:
```
def create_dataset(self, name, data_source, sensors, type,
                   annotation_format, storage_url, data_folder,
                   container_name=None, sas_token=None, sequential=False,
                   generate_metadata=False, description=None):
    try: import config; client = config._client
    except Exception as e:
        raise ClientConnectionError(f"Failed to get client info: {e}")
    dataset_output = client.create_dataset(
        name=name, data_source=data_source, project=self, sensors=sensors,
        type=type, annotation_format=annotation_format,
        storage_url=storage_url, container_name=container_name,
        data_folder=data_folder, sas_token=sas_token, sequential=sequential,
        generate_metadata=generate_metadata, description=description)
    return dataset_output
```
The method body performs no validation of its own; only the client lookup is
inside the `try`, and the collaborator call is outside it.

The embedding makes the two external effects explicit:
* `Env.getClient` is the outcome of `import config; config._client`
  (Modelled from the spec: the `config` module is not in the given source;
  §6 — the client is process-wide state read on each call, and the lookup
  "fails fast ... if absent or unreachable", i.e. an absent client makes the
  lookup raise, which the method wraps).
* the result records, besides the returned value or exception, the list of
  requests the collaborator was invoked with (so "the collaborator is never
  invoked" is expressible) and the `self` value after the call (so frame
  claims are expressible). -/

/-- The keyword arguments of a `Project.create_dataset` call, with the
source's defaults. -/
structure CreateDatasetArgs where
  name : String
  data_source : DataSource
  sensors : List Sensor
  type : DatasetType
  annotation_format : AnnotationFormat
  storage_url : String
  data_folder : String
  container_name : Option String := none
  sas_token : Option String := none
  sequential : Bool := false
  generate_metadata : Bool := false
  description : Option String := none
deriving DecidableEq

/-- The keyword arguments passed to the collaborator's `create_dataset`,
in the source's order. -/
structure CreateReq where
  name : String
  data_source : DataSource
  project : Project
  sensors : List Sensor
  type : DatasetType
  annotation_format : AnnotationFormat
  storage_url : String
  container_name : Option String
  data_folder : String
  sas_token : Option String
  sequential : Bool
  generate_metadata : Bool
  description : Option String
deriving DecidableEq

/-- The client collaborator (§6): its `create_dataset` either returns a
`Dataset` or raises. -/
structure Client where
  create_dataset : CreateReq → Except PyExc Dataset

/-- The process-wide state `Project.create_dataset` reads: the outcome of
`import config; client = config._client`. -/
structure Env where
  getClient : Except PyExc Client

/-- The request `Project.create_dataset` assembles for the collaborator:
every argument is passed through unchanged and `project` is `self`. -/
def Project.mkCreateReq (self : Project) (args : CreateDatasetArgs) : CreateReq :=
  { name := args.name
    data_source := args.data_source
    project := self
    sensors := args.sensors
    type := args.type
    annotation_format := args.annotation_format
    storage_url := args.storage_url
    container_name := args.container_name
    data_folder := args.data_folder
    sas_token := args.sas_token
    sequential := args.sequential
    generate_metadata := args.generate_metadata
    description := args.description }

/-- `Project.create_dataset`.  Returns the call's outcome, the list of
requests the collaborator was invoked with, and the `self` value after the
call. -/
def Project.create_dataset (self : Project) (env : Env)
    (args : CreateDatasetArgs) :
    Except PyExc Dataset × List CreateReq × Project :=
  match env.getClient with
  | .error e =>
    (.error (.clientConnectionError ("Failed to get client info: " ++ e.toMessage)),
      [], self)
  | .ok client =>
    (client.create_dataset (self.mkCreateReq args), [self.mkCreateReq args], self)

/-! ### Construction from raw input data

Pydantic parses fields in definition order and validates nested models
independently, extending the error location with the field name and, for list
fields, the item index.  The helpers below embed that machinery; each model's
`fromJVal` (or `fromMapping`) lists its fields in the source's order. -/

/-- Python dict lookup on the input mapping. -/
def jlookup (k : String) : List (String × JVal) → Option JVal
  | [] => none
  | (k', v) :: rest => if k' = k then some v else jlookup k rest

/-- A required `str` field. -/
def reqStrField (m : List (String × JVal)) (k : String) : Except PyExc String :=
  match jlookup k m with
  | none => .error (.validationError [k] "field required")
  | some (.str s) => .ok s
  | some _ => .error (.validationError [k] "str type expected")

/-- A required `bool` field. -/
def reqBoolField (m : List (String × JVal)) (k : String) : Except PyExc Bool :=
  match jlookup k m with
  | none => .error (.validationError [k] "field required")
  | some (.bool b) => .ok b
  | some _ => .error (.validationError [k] "value could not be parsed to a boolean")

/-- A required `int` field. -/
def reqIntField (m : List (String × JVal)) (k : String) : Except PyExc Int :=
  match jlookup k m with
  | none => .error (.validationError [k] "field required")
  | some (.int n) => .ok n
  | some _ => .error (.validationError [k] "value is not a valid integer")

/-- An `Optional[str] = None` field. -/
def optStrField (m : List (String × JVal)) (k : String) :
    Except PyExc (Option String) :=
  match jlookup k m with
  | none => .ok none
  | some .null => .ok none
  | some (.str s) => .ok (some s)
  | some _ => .error (.validationError [k] "str type expected")

/-- An `Optional[int] = None` field. -/
def optIntField (m : List (String × JVal)) (k : String) :
    Except PyExc (Option Int) :=
  match jlookup k m with
  | none => .ok none
  | some .null => .ok none
  | some (.int n) => .ok (some n)
  | some _ => .error (.validationError [k] "value is not a valid integer")

/-- A `bool = False` field (the default of `Dataset.sequential` and
`Dataset.generate_metadata`). -/
def defBoolField (m : List (String × JVal)) (k : String) : Except PyExc Bool :=
  match jlookup k m with
  | none => .ok false
  | some (.bool b) => .ok b
  | some _ => .error (.validationError [k] "value could not be parsed to a boolean")

/-- A required enum field: the stored string must be a recognized member. -/
def reqEnumField (m : List (String × JVal)) (k : String)
    (ofString : String → Option α) : Except PyExc α :=
  match jlookup k m with
  | none => .error (.validationError [k] "field required")
  | some (.str s) =>
    match ofString s with
    | some v => .ok v
    | none => .error (.validationError [k] "value is not a valid enumeration member")
  | some _ => .error (.validationError [k] "value is not a valid enumeration member")

/-- An `Optional[enum] = None` field. -/
def optEnumField (m : List (String × JVal)) (k : String)
    (ofString : String → Option α) : Except PyExc (Option α) :=
  match jlookup k m with
  | none => .ok none
  | some .null => .ok none
  | some (.str s) =>
    match ofString s with
    | some v => .ok (some v)
    | none => .error (.validationError [k] "value is not a valid enumeration member")
  | some _ => .error (.validationError [k] "value is not a valid enumeration member")

/-- Parse the items of a list field with `f`, recording the index of the
first failing item in its error location, the way pydantic does. -/
def parseListIdx (f : JVal → Except PyExc α) : Nat → List JVal →
    Except PyExc (List α)
  | _, [] => .ok []
  | i, v :: rest =>
    match f v with
    | .error e => .error (prefixIdx i e)
    | .ok a =>
      match parseListIdx f (i + 1) rest with
      | .error e => .error e
      | .ok as => .ok (a :: as)

/-- A required nested-model field. -/
def reqSubField (m : List (String × JVal)) (k : String)
    (f : JVal → Except PyExc α) : Except PyExc α :=
  match jlookup k m with
  | none => .error (.validationError [k] "field required")
  | some v =>
    match f v with
    | .error e => .error (prefixField k e)
    | .ok a => .ok a

/-- A required list-of-models field. -/
def reqListField (m : List (String × JVal)) (k : String)
    (f : JVal → Except PyExc α) : Except PyExc (List α) :=
  match jlookup k m with
  | none => .error (.validationError [k] "field required")
  | some (.arr xs) =>
    match parseListIdx f 0 xs with
    | .error e => .error (prefixField k e)
    | .ok as => .ok as
  | some _ => .error (.validationError [k] "value is not a valid list")

/-- An `Optional[list[model]] = None` field. -/
def optListField (m : List (String × JVal)) (k : String)
    (f : JVal → Except PyExc α) : Except PyExc (Option (List α)) :=
  match jlookup k m with
  | none => .ok none
  | some .null => .ok none
  | some (.arr xs) =>
    match parseListIdx f 0 xs with
    | .error e => .error (prefixField k e)
    | .ok as => .ok (some as)
  | some _ => .error (.validationError [k] "value is not a valid list")

/-- An `Optional[list[...]]` field whose items are kept raw (used by
`Ontology.make`, which parses the items itself). -/
def optRawListField (m : List (String × JVal)) (k : String) :
    Except PyExc (Option (List JVal)) :=
  match jlookup k m with
  | none => .ok none
  | some .null => .ok none
  | some (.arr xs) => .ok (some xs)
  | some _ => .error (.validationError [k] "value is not a valid list")

/-- Construction of an `AttributeOption` from raw input. -/
def AttributeOption.fromJVal : JVal → Except PyExc AttributeOption
  | .obj m => do
    let id ← optIntField m "id"
    let v ←
      match jlookup "value" m with
      | none => Except.error (.validationError ["value"] "field required")
      | some (.str s) => Except.ok (AttrValue.str s)
      | some (.int n) => Except.ok (AttrValue.int n)
      | some (.bool b) => Except.ok (AttrValue.bool b)
      | some _ =>
        Except.error (.validationError ["value"] "value is not a valid scalar")
    pure ⟨id, v⟩
  | _ => .error (.validationError [] "value is not a valid dict")

/-- Construction of an `Attribute` from raw input: fields in source order
(id, name, options, type), then the `option_data_validator` on `type` with
the already-parsed `options` in scope. -/
def Attribute.fromJVal : JVal → Except PyExc Attribute
  | .obj m => do
    let id ← optIntField m "id"
    let name ← reqStrField m "name"
    let options ← optListField m "options" AttributeOption.fromJVal
    let ty ← reqEnumField m "type" AttributeType.ofString
    match option_data_validator ty options with
    | .error e => .error e
    | .ok ty' => .ok ⟨id, name, options, ty'⟩
  | _ => .error (.validationError [] "value is not a valid dict")

/-- Construction of a `Sensor` from raw input. -/
def Sensor.fromJVal : JVal → Except PyExc Sensor
  | .obj m => do
    let id ← optIntField m "id"
    let name ← reqStrField m "name"
    let ty ← reqEnumField m "type" SensorType.ofString
    pure ⟨id, name, ty⟩
  | _ => .error (.validationError [] "value is not a valid dict")

/-- Construction of an `OntologyClass` from raw input: `color_validator` runs
at the `color` field's position. -/
def OntologyClass.fromJVal : JVal → Except PyExc OntologyClass
  | .obj m => do
    let id ← optIntField m "id"
    let name ← reqStrField m "name"
    let color ← reqStrField m "color"
    let color ← color_validator color
    let rank ← reqIntField m "rank"
    let attributes ← optListField m "attributes" Attribute.fromJVal
    pure ⟨id, name, color, rank, attributes⟩
  | _ => .error (.validationError [] "value is not a valid dict")

/-- Construction of an `Ontology` from already-parsed scalar fields and the
raw `classes` items: each class is validated independently and a failure,
extended with the field name and item index, fails the whole construction. -/
def Ontology.make (id : Option Int) (name : String)
    (image_type : Option OntologyImageType) (pcd_type : Option OntologyPcdType)
    (classesRaw : Option (List JVal)) : Except PyExc Ontology :=
  match classesRaw with
  | none => .ok ⟨id, name, image_type, pcd_type, none⟩
  | some xs =>
    match parseListIdx OntologyClass.fromJVal 0 xs with
    | .error e => .error (prefixField "classes" e)
    | .ok cs => .ok ⟨id, name, image_type, pcd_type, some cs⟩

/-- Construction of an `Ontology` from raw input. -/
def Ontology.fromJVal : JVal → Except PyExc Ontology
  | .obj m => do
    let id ← optIntField m "id"
    let name ← reqStrField m "name"
    let it ← optEnumField m "image_type" OntologyImageType.ofString
    let pt ← optEnumField m "pcd_type" OntologyPcdType.ofString
    let cl ← optRawListField m "classes"
    Ontology.make id name it pt cl
  | _ => .error (.validationError [] "value is not a valid dict")

/-- Construction of a `Project` from raw input. -/
def Project.fromJVal : JVal → Except PyExc Project
  | .obj m => do
    let id ← optIntField m "id"
    let name ← reqStrField m "name"
    let description ← optStrField m "description"
    let ego_car ← optStrField m "ego_car"
    let ontology ← reqSubField m "ontology" Ontology.fromJVal
    let sensors ← reqListField m "sensors" Sensor.fromJVal
    pure ⟨id, name, description, ego_car, ontology, sensors⟩
  | _ => .error (.validationError [] "value is not a valid dict")

/-! ### Open-schema models: `DataConfig` and `Dataset`

Both set `extra = "allow"` in their `Config`: input keys that name no declared
field are retained verbatim and re-emitted by `.dict()` after the declared
fields. -/

/-- The declared field names of `DataConfig`, in source order. -/
def dataConfigFields : List String :=
  ["storage_url", "container_name", "sas_token", "data_folder", "sequential",
   "generate_metadata", "description", "type", "annotation_format"]

/-- The declared field names of `Dataset`, in source order. -/
def datasetFields : List String :=
  ["id", "project", "sensors", "name", "type", "data_source",
   "annotation_format", "status", "sequential", "generate_metadata",
   "description", "file_count", "image_count", "pcd_count", "created_by",
   "container_name", "storage_url"]

/-- The input pairs whose key names no declared field: what `extra = "allow"`
retains. -/
def extrasOf (fields : List String) (m : List (String × JVal)) :
    List (String × JVal) :=
  m.filter (fun kv => decide (kv.1 ∉ fields))

/-- Construction of a `DataConfig` from an input mapping. -/
def DataConfig.fromMapping (m : List (String × JVal)) : Except PyExc DataConfig := do
  let storage_url ← reqStrField m "storage_url"
  let container_name ← optStrField m "container_name"
  let sas_token ← optStrField m "sas_token"
  let data_folder ← reqStrField m "data_folder"
  let sequential ← reqBoolField m "sequential"
  let generate_metadata ← reqBoolField m "generate_metadata"
  let description ← optStrField m "description"
  let type ← reqStrField m "type"
  let annotation_format ← reqStrField m "annotation_format"
  pure ⟨storage_url, container_name, sas_token, data_folder, sequential,
    generate_metadata, description, type, annotation_format,
    extrasOf dataConfigFields m⟩

/-- Construction of a `Dataset` from an input mapping (this is how a
collaborator response becomes a typed `Dataset`, §4.9). -/
def Dataset.fromMapping (m : List (String × JVal)) : Except PyExc Dataset := do
  let id ← optIntField m "id"
  let project ← reqSubField m "project" Project.fromJVal
  let sensors ← reqListField m "sensors" Sensor.fromJVal
  let name ← reqStrField m "name"
  let type ← reqEnumField m "type" DatasetType.ofString
  let data_source ← reqEnumField m "data_source" DataSource.ofString
  let annotation_format ← reqEnumField m "annotation_format" AnnotationFormat.ofString
  let status ← reqEnumField m "status" DatasetStatus.ofString
  let sequential ← defBoolField m "sequential"
  let generate_metadata ← defBoolField m "generate_metadata"
  let description ← optStrField m "description"
  let file_count ← optIntField m "file_count"
  let image_count ← optIntField m "image_count"
  let pcd_count ← optIntField m "pcd_count"
  let created_by ← optIntField m "created_by"
  let container_name ← optStrField m "container_name"
  let storage_url ← optStrField m "storage_url"
  pure ⟨id, project, sensors, name, type, data_source, annotation_format,
    status, sequential, generate_metadata, description, file_count,
    image_count, pcd_count, created_by, container_name, storage_url,
    extrasOf datasetFields m⟩

/-! ### Re-serialization (`.dict()`) -/

/-- Serialize an optional value, `None` becoming JSON null. -/
def optJ (f : α → JVal) : Option α → JVal
  | none => .null
  | some a => f a

/-- Serialize an `AttrValue`. -/
def AttrValue.toJVal : AttrValue → JVal
  | .str s => .str s
  | .int n => .int n
  | .bool b => .bool b

/-- Serialize an `AttributeOption`. -/
def AttributeOption.toJVal (o : AttributeOption) : JVal :=
  .obj [("id", optJ JVal.int o.id), ("value", o.value.toJVal)]

/-- Serialize an `Attribute` (`use_enum_values`: the type is its string
value). -/
def Attribute.toJVal (a : Attribute) : JVal :=
  .obj [("id", optJ JVal.int a.id), ("name", .str a.name),
    ("options", optJ (fun l => .arr (l.map AttributeOption.toJVal)) a.options),
    ("type", .str a.type.val)]

/-- Serialize a `Sensor`. -/
def Sensor.toJVal (s : Sensor) : JVal :=
  .obj [("id", optJ JVal.int s.id), ("name", .str s.name),
    ("type", .str s.type.val)]

/-- Serialize an `OntologyClass`. -/
def OntologyClass.toJVal (c : OntologyClass) : JVal :=
  .obj [("id", optJ JVal.int c.id), ("name", .str c.name),
    ("color", .str c.color), ("rank", .int c.rank),
    ("attributes", optJ (fun l => .arr (l.map Attribute.toJVal)) c.attributes)]

/-- Serialize an `Ontology`. -/
def Ontology.toJVal (o : Ontology) : JVal :=
  .obj [("id", optJ JVal.int o.id), ("name", .str o.name),
    ("image_type", optJ (fun t => JVal.str t.val) o.image_type),
    ("pcd_type", optJ (fun t => JVal.str t.val) o.pcd_type),
    ("classes", optJ (fun l => .arr (l.map OntologyClass.toJVal)) o.classes)]

/-- Serialize a `Project`. -/
def Project.toJVal (p : Project) : JVal :=
  .obj [("id", optJ JVal.int p.id), ("name", .str p.name),
    ("description", optJ JVal.str p.description),
    ("ego_car", optJ JVal.str p.ego_car),
    ("ontology", p.ontology.toJVal),
    ("sensors", .arr (p.sensors.map Sensor.toJVal))]

/-- Re-serialize a `DataConfig`: the declared fields in order, then the
retained extra pairs. -/
def DataConfig.toMapping (dc : DataConfig) : List (String × JVal) :=
  [("storage_url", .str dc.storage_url),
   ("container_name", optJ JVal.str dc.container_name),
   ("sas_token", optJ JVal.str dc.sas_token),
   ("data_folder", .str dc.data_folder),
   ("sequential", .bool dc.sequential),
   ("generate_metadata", .bool dc.generate_metadata),
   ("description", optJ JVal.str dc.description),
   ("type", .str dc.type),
   ("annotation_format", .str dc.annotation_format)] ++ dc.extra

/-- Re-serialize a `Dataset`: the declared fields in order, then the retained
extra pairs. -/
def Dataset.toMapping (d : Dataset) : List (String × JVal) :=
  [("id", optJ JVal.int d.id),
   ("project", d.project.toJVal),
   ("sensors", .arr (d.sensors.map Sensor.toJVal)),
   ("name", .str d.name),
   ("type", .str d.type.val),
   ("data_source", .str d.data_source.val),
   ("annotation_format", .str d.annotation_format.val),
   ("status", .str d.status.val),
   ("sequential", .bool d.sequential),
   ("generate_metadata", .bool d.generate_metadata),
   ("description", optJ JVal.str d.description),
   ("file_count", optJ JVal.int d.file_count),
   ("image_count", optJ JVal.int d.image_count),
   ("pcd_count", optJ JVal.int d.pcd_count),
   ("created_by", optJ JVal.int d.created_by),
   ("container_name", optJ JVal.str d.container_name),
   ("storage_url", optJ JVal.str d.storage_url)] ++ d.extra

/-! ### Auxiliary definitions for stating the properties -/

/-- Whether a construction or call succeeded. -/
def isOkE : Except PyExc α → Bool
  | .ok _ => true
  | .error _ => false

/-- Last character of `pre`, or `prev` when `pre` is empty: the character
preceding a match position that sits after the prefix `pre`. -/
def lastOr (prev : Option Char) : List Char → Option Char
  | [] => prev
  | c :: rest => lastOr (some c) rest

/-- A `\b[a-zA-Z0-9]{6}\b` match somewhere in `l`, stated declaratively: six
consecutive ASCII alphanumerics preceded and followed by a word boundary (a
non-word character, or an end of the string). -/
def BoundedAlnum6 (l : List Char) : Prop :=
  ∃ pre mid post, l = pre ++ mid ++ post ∧ mid.length = 6 ∧
    mid.all Char.isAlphanum = true ∧ boundaryBefore (lastOr none pre) = true ∧
    nonWordStart post = true

/-- The color pattern exactly as the spec's sentence states it:
`^#[0-9A-Za-z]{6}$` — a `#` followed by exactly six ASCII alphanumerics and
nothing else.  Stated from the spec's words, to compare the code's validator
against the claim. -/
def specColorPattern (s : String) : Bool :=
  match s.data with
  | '#' :: rest => (rest.length == 6) && rest.all Char.isAlphanum
  | _ => false

/-! ### Concrete sample values, used by witnesses and counterexamples -/

/-- A valid sensor (§8 scenario: `{name: "cam0", type: "camera"}`). -/
def sampleSensor : Sensor := ⟨none, "cam0", .camera⟩

/-- A valid ontology (§8 scenario: one class `car` colored `#FF0000`). -/
def sampleOntology : Ontology :=
  ⟨none, "onto", none, none, some [⟨none, "car", "#FF0000", 1, none⟩]⟩

/-- A valid project owning `sampleOntology` and `sampleSensor`. -/
def sampleProject : Project :=
  ⟨none, "proj", none, none, sampleOntology, [sampleSensor]⟩

/-- The dataset the stub collaborator returns (§8 scenario: id 7, status
`processing`). -/
def sampleDataset : Dataset :=
  { id := some 7, project := sampleProject, sensors := [sampleSensor],
    name := "ds1", type := .boundingBox2d, data_source := .sdk,
    annotation_format := .coco, status := .processing }

/-- A stub collaborator that succeeds with `sampleDataset` on any request. -/
def okClient : Client := ⟨fun _ => .ok sampleDataset⟩

/-- An environment whose client lookup succeeds with `okClient`. -/
def okEnv : Env := ⟨.ok okClient⟩

/-- A stub collaborator that raises on any request. -/
def raisingClient : Client := ⟨fun _ => .error (.other "boom")⟩

/-- An environment whose client lookup succeeds with `raisingClient`. -/
def raisingEnv : Env := ⟨.ok raisingClient⟩

/-- An environment whose client lookup fails (client never initialized). -/
def noClientEnv : Env :=
  ⟨.error (.other "module config has no attribute _client")⟩

/-- Valid `create_dataset` arguments (§8 scenario). -/
def goodArgs : CreateDatasetArgs :=
  { name := "ds1", data_source := .sdk, sensors := [sampleSensor],
    type := .boundingBox2d, annotation_format := .coco,
    storage_url := "s3://bucket", data_folder := "raw/" }

/-- The same arguments with an empty `sensors` list. -/
def emptySensorArgs : CreateDatasetArgs := { goodArgs with sensors := [] }

/-- Raw input of a valid ontology class. -/
def goodClassJ : JVal :=
  .obj [("name", .str "car"), ("color", .str "#FF0000"), ("rank", .int 1)]

/-- Raw input of an ontology class with an invalid color (no leading `#`). -/
def badClassJ : JVal :=
  .obj [("name", .str "bus"), ("color", .str "AABBCC"), ("rank", .int 2)]

/-- A `DataConfig` input mapping with one unrecognized key `custom`. -/
def sampleDCMap : List (String × JVal) :=
  [("storage_url", .str "https://blob"), ("data_folder", .str "raw/"),
   ("sequential", .bool false), ("generate_metadata", .bool false),
   ("type", .str "sdk"), ("annotation_format", .str "coco"),
   ("custom", .str "kept")]

/-- The `DataConfig` that `sampleDCMap` parses to. -/
def sampleDC : DataConfig :=
  ⟨"https://blob", none, none, "raw/", false, false, none, "sdk", "coco",
   [("custom", JVal.str "kept")]⟩

/-- Raw input of a valid sensor. -/
def sampleSensorJ : JVal := .obj [("name", .str "cam0"), ("type", .str "camera")]

/-- Raw input of a minimal valid project. -/
def sampleProjectJ : JVal :=
  .obj [("name", .str "proj"), ("ontology", .obj [("name", .str "onto")]),
    ("sensors", .arr [sampleSensorJ])]

/-- A `Dataset` input mapping with one unrecognized key `custom`. -/
def sampleDSMap : List (String × JVal) :=
  [("id", .int 7), ("project", sampleProjectJ), ("sensors", .arr [sampleSensorJ]),
   ("name", .str "ds1"), ("type", .str "2d_bounding_box"),
   ("data_source", .str "sdk"), ("annotation_format", .str "coco"),
   ("status", .str "processing"), ("custom", .str "kept")]

/-- The `Dataset` that `sampleDSMap` parses to. -/
def sampleParsedDataset : Dataset :=
  ⟨some 7, ⟨none, "proj", none, none, ⟨none, "onto", none, none, none⟩,
      [⟨none, "cam0", .camera⟩]⟩,
   [⟨none, "cam0", .camera⟩], "ds1", .boundingBox2d, .sdk, .coco, .processing,
   false, false, none, none, none, none, none, none, none,
   [("custom", JVal.str "kept")]⟩

/-! ### Helper lemmas -/

theorem except_bind_ok {ε α β : Type} {x : Except ε α} {f : α → Except ε β} {b : β} :
    (x >>= f) = .ok b ↔ ∃ a, x = .ok a ∧ f a = .ok b := by
  cases x <;> simp [Bind.bind, Except.bind]

theorem startsWith6_iff {l : List Char} :
    startsWith6 l = true ↔
      ∃ mid rest, l = mid ++ rest ∧ mid.length = 6 ∧
        mid.all Char.isAlphanum = true ∧ nonWordStart rest = true := by
  constructor
  · intro h
    simp only [startsWith6, Bool.and_eq_true, beq_iff_eq] at h
    obtain ⟨⟨h1, h2⟩, h3⟩ := h
    exact ⟨l.take 6, l.drop 6, (List.take_append_drop 6 l).symm, h1, h2, h3⟩
  · rintro ⟨mid, rest, rfl, hlen, hall, hnw⟩
    have ht : (mid ++ rest).take 6 = mid := by
      rw [← hlen]; exact List.take_left mid rest
    have hd : (mid ++ rest).drop 6 = rest := by
      rw [← hlen]; exact List.drop_left mid rest
    simp only [startsWith6, ht, hd, Bool.and_eq_true, beq_iff_eq]
    exact ⟨⟨hlen, hall⟩, hnw⟩

theorem searchAux_iff : ∀ (l : List Char) (prev : Option Char),
    searchAux prev l = true ↔
      ∃ pre post, l = pre ++ post ∧ boundaryBefore (lastOr prev pre) = true ∧
        startsWith6 post = true := by
  intro l
  induction l with
  | nil =>
    intro prev
    simp only [searchAux]
    constructor
    · intro h; cases h
    · rintro ⟨pre, post, h, hb, hs⟩
      have hpost : post = [] := (List.append_eq_nil.mp h.symm).2
      subst hpost
      exact absurd hs (by decide)
  | cons c rest ih =>
    intro prev
    simp only [searchAux, Bool.or_eq_true, Bool.and_eq_true]
    constructor
    · rintro (⟨hb, hs⟩ | h)
      · exact ⟨[], c :: rest, rfl, hb, hs⟩
      · obtain ⟨pre, post, heq, hb, hs⟩ := (ih (some c)).mp h
        exact ⟨c :: pre, post, by rw [heq]; rfl, hb, hs⟩
    · rintro ⟨pre, post, heq, hb, hs⟩
      cases pre with
      | nil =>
        left
        simp only [List.nil_append] at heq
        exact ⟨hb, by rw [heq]; exact hs⟩
      | cons d pre' =>
        right
        rw [List.cons_append] at heq
        injection heq with hdc hrest
        subst hdc
        exact (ih (some c)).mpr ⟨pre', post, hrest, hb, hs⟩

theorem reSearchWord6_iff {l : List Char} :
    reSearchWord6 l = true ↔ BoundedAlnum6 l := by
  unfold reSearchWord6 BoundedAlnum6
  rw [searchAux_iff]
  constructor
  · rintro ⟨pre, rest, rfl, hb, hs⟩
    obtain ⟨mid, post, rfl, hlen, hall, hnw⟩ := startsWith6_iff.mp hs
    exact ⟨pre, mid, post, (List.append_assoc pre mid post).symm, hlen, hall, hb, hnw⟩
  · rintro ⟨pre, mid, post, rfl, hlen, hall, hb, hnw⟩
    exact ⟨pre, mid ++ post, List.append_assoc pre mid post, hb,
      startsWith6_iff.mpr ⟨mid, post, rfl, hlen, hall, hnw⟩⟩

theorem optionsFalsy_iff (o : Option (List AttributeOption)) :
    optionsFalsy o = true ↔ o = none ∨ o = some [] := by
  cases o with
  | none => simp [optionsFalsy]
  | some l => simp [optionsFalsy, List.isEmpty_iff]

theorem jlookup_filter {p : String × JVal → Bool} {k : String}
    (hp : ∀ v, p (k, v) = true) :
    ∀ m : List (String × JVal), jlookup k (m.filter p) = jlookup k m := by
  intro m
  induction m with
  | nil => rfl
  | cons kv rest ih =>
    obtain ⟨k', v⟩ := kv
    by_cases hk : k' = k
    · subst hk
      simp [List.filter, hp v, jlookup]
    · cases hpv : p (k', v) <;> simp [List.filter, hpv, jlookup, hk, ih]

theorem jlookup_append_of_none {k : String} {l1 l2 : List (String × JVal)}
    (h : jlookup k l1 = none) : jlookup k (l1 ++ l2) = jlookup k l2 := by
  induction l1 with
  | nil => rfl
  | cons kv rest ih =>
    obtain ⟨k', v⟩ := kv
    by_cases hk : k' = k
    · subst hk; simp [jlookup] at h
    · simp only [jlookup, List.cons_append, if_neg hk] at h ⊢
      exact ih h

theorem jlookup_none_of_not_mem {k : String} :
    ∀ l : List (String × JVal), k ∉ l.map Prod.fst → jlookup k l = none := by
  intro l
  induction l with
  | nil => intro _; rfl
  | cons kv rest ih =>
    intro h
    obtain ⟨k', v⟩ := kv
    simp only [List.map_cons, List.mem_cons] at h
    push_neg at h
    simp only [jlookup, if_neg (fun hc : k' = k => h.1 hc.symm)]
    exact ih h.2

theorem dataConfig_fromMapping_extra {m : List (String × JVal)} {dc : DataConfig}
    (h : DataConfig.fromMapping m = .ok dc) :
    dc.extra = extrasOf dataConfigFields m := by
  unfold DataConfig.fromMapping at h
  simp only [except_bind_ok, pure, Except.pure, Except.ok.injEq] at h
  obtain ⟨su, _, cn, _, st, _, df, _, sq, _, gm, _, de, _, ty, _, af, _, hdc⟩ := h
  rw [← hdc]

theorem dataset_fromMapping_extra {m : List (String × JVal)} {d : Dataset}
    (h : Dataset.fromMapping m = .ok d) :
    d.extra = extrasOf datasetFields m := by
  unfold Dataset.fromMapping at h
  simp only [except_bind_ok, pure, Except.pure, Except.ok.injEq] at h
  obtain ⟨a1, _, a2, _, a3, _, a4, _, a5, _, a6, _, a7, _, a8, _, a9, _, a10, _,
    a11, _, a12, _, a13, _, a14, _, a15, _, a16, _, a17, _, hd⟩ := h
  rw [← hd]

theorem parseListIdx_error_of_mem {f : JVal → Except PyExc α} :
    ∀ (l : List JVal) (i : Nat), (∃ v ∈ l, isOkE (f v) = false) →
      isOkE (parseListIdx f i l) = false := by
  intro l
  induction l with
  | nil => rintro i ⟨v, hv, _⟩; cases hv
  | cons w rest ih =>
    rintro i ⟨v, hv, hfv⟩
    rw [List.mem_cons] at hv
    cases hfw : f w with
    | error e => simp [parseListIdx, hfw, isOkE]
    | ok a =>
      have hrest : ∃ v ∈ rest, isOkE (f v) = false := by
        rcases hv with rfl | hv
        · rw [hfw] at hfv; cases hfv
        · exact ⟨v, hv, hfv⟩
      have := ih (i + 1) hrest
      cases hr : parseListIdx f (i + 1) rest with
      | error e => simp [parseListIdx, hfw, hr, isOkE]
      | ok as => rw [hr] at this; cases this

theorem parseListIdx_append_error {f : JVal → Except PyExc α} :
    ∀ (pre : List JVal) (i : Nat) (bad : JVal) (post : List JVal) (e : PyExc),
      (∀ v ∈ pre, isOkE (f v) = true) → f bad = .error e →
      parseListIdx f i (pre ++ bad :: post) = .error (prefixIdx (i + pre.length) e) := by
  intro pre
  induction pre with
  | nil =>
    intro i bad post e _ hbad
    simp [parseListIdx, hbad]
  | cons w pre' ih =>
    intro i bad post e hok hbad
    obtain ⟨a, ha⟩ : ∃ a, f w = .ok a := by
      have hw := hok w (List.mem_cons_self w pre')
      cases hfw : f w with
      | error e' => rw [hfw] at hw; cases hw
      | ok a => exact ⟨a, rfl⟩
    have hrec := ih (i + 1) bad post e
      (fun v hv => hok v (List.mem_cons_of_mem w hv)) hbad
    simp only [List.cons_append, parseListIdx, ha, List.length_cons]
    rw [show pre'.append (bad :: post) = pre' ++ bad :: post from rfl, hrec]
    rw [show i + 1 + pre'.length = i + (pre'.length + 1) from by omega]

/-! ### Claim theorems -/

/-- C1 counterexample: calling `create_dataset` on a project with an empty
`sensors` argument does not fail with a ValidationError — it succeeds, and the
collaborator is invoked (its call list is nonempty), contradicting the claim
that the call fails before the collaborator is reached. -/
theorem create_dataset_skips_sensor_validation_counterexample :
    (sampleProject.create_dataset okEnv emptySensorArgs).1 = Except.ok sampleDataset ∧
    isValidationErrorResult (sampleProject.create_dataset okEnv emptySensorArgs).1 = false ∧
    (sampleProject.create_dataset okEnv emptySensorArgs).2.1 ≠ [] := by
  refine ⟨rfl, rfl, ?_⟩
  have h : (sampleProject.create_dataset okEnv emptySensorArgs).2.1 =
      [sampleProject.mkCreateReq emptySensorArgs] := rfl
  rw [h]
  exact List.cons_ne_nil _ _

/-- C1 (amended): `Project.create_dataset` performs no validation of its
`sensors` argument.  Whenever the client is obtained, the collaborator is
invoked exactly once with the `sensors` list passed through unchanged (be it
empty or not among the Project's own sensors), and the call's outcome is
exactly the collaborator's outcome — in particular no ValidationError is
raised by `create_dataset` itself. -/
theorem create_dataset_passes_sensors_through :
    ∀ (p : Project) (env : Env) (args : CreateDatasetArgs) (c : Client),
      env.getClient = .ok c →
      (p.create_dataset env args).1 = c.create_dataset (p.mkCreateReq args) ∧
      (p.create_dataset env args).2.1 = [p.mkCreateReq args] ∧
      (p.mkCreateReq args).sensors = args.sensors := by
  intro p env args c h
  unfold Project.create_dataset
  rw [h]
  exact ⟨rfl, rfl, rfl⟩

/-- C1 witness: the amended theorem applied to a concrete call with an empty
sensors list and a collaborator stub. -/
theorem create_dataset_passes_sensors_through_witness :
    (sampleProject.create_dataset okEnv emptySensorArgs).1 =
      okClient.create_dataset (sampleProject.mkCreateReq emptySensorArgs) ∧
    (sampleProject.create_dataset okEnv emptySensorArgs).2.1 =
      [sampleProject.mkCreateReq emptySensorArgs] ∧
    (sampleProject.mkCreateReq emptySensorArgs).sensors = emptySensorArgs.sensors :=
  create_dataset_passes_sensors_through sampleProject okEnv emptySensorArgs okClient rfl

/-- C3 counterexample: with a collaborator that raises, the concrete
`create_dataset` call does not produce a `ClientConnectionError` — the
collaborator's exception comes out raw, contradicting the claimed wrapping. -/
theorem collaborator_exception_unwrapped_counterexample :
    (sampleProject.create_dataset raisingEnv goodArgs).1 =
      Except.error (.other "boom") ∧
    isClientConnectionErrorResult (sampleProject.create_dataset raisingEnv goodArgs).1 =
      false :=
  ⟨rfl, rfl⟩

/-- C3 (amended): only the client lookup is guarded: an exception raised by
the collaborator's `create_dataset` call itself propagates to the caller
unchanged, not wrapped in a `ClientConnectionError` (the source's
`try/except` ends before the collaborator call). -/
theorem collaborator_exception_propagates_raw :
    ∀ (p : Project) (env : Env) (args : CreateDatasetArgs) (c : Client) (e : PyExc),
      env.getClient = .ok c →
      c.create_dataset (p.mkCreateReq args) = .error e →
      (p.create_dataset env args).1 = .error e := by
  intro p env args c e h hc
  unfold Project.create_dataset
  rw [h]
  exact hc

/-- C3 witness: the amended theorem applied to a concrete call with a raising
collaborator stub. -/
theorem collaborator_exception_propagates_raw_witness :
    (sampleProject.create_dataset raisingEnv goodArgs).1 =
      Except.error (.other "boom") :=
  collaborator_exception_propagates_raw sampleProject raisingEnv goodArgs
    raisingClient (.other "boom") rfl rfl

/-- C5: when the collaborator returns a Dataset, `create_dataset` returns
exactly that value, unmodified. -/
theorem create_dataset_returns_collaborator_dataset_unmodified :
    ∀ (p : Project) (env : Env) (args : CreateDatasetArgs) (c : Client) (ds : Dataset),
      env.getClient = .ok c →
      c.create_dataset (p.mkCreateReq args) = .ok ds →
      (p.create_dataset env args).1 = .ok ds := by
  intro p env args c ds h hc
  unfold Project.create_dataset
  rw [h]
  exact hc

/-- C5 witness: a collaborator stub returning the §8 scenario's Dataset with
id 7 and status `processing` yields exactly that Dataset. -/
theorem create_dataset_returns_collaborator_dataset_unmodified_witness :
    (sampleProject.create_dataset okEnv goodArgs).1 = Except.ok sampleDataset :=
  create_dataset_returns_collaborator_dataset_unmodified sampleProject okEnv
    goodArgs okClient sampleDataset rfl rfl

/-- C6: when the process-wide client cannot be obtained, `create_dataset`
raises a `ClientConnectionError` (wrapping the lookup failure's message) and
the collaborator is never invoked. -/
theorem create_dataset_fails_fast_without_client :
    ∀ (p : Project) (env : Env) (args : CreateDatasetArgs) (e : PyExc),
      env.getClient = .error e →
      (p.create_dataset env args).1 =
        Except.error (.clientConnectionError
          ("Failed to get client info: " ++ e.toMessage)) ∧
      (p.create_dataset env args).2.1 = [] := by
  intro p env args e h
  unfold Project.create_dataset
  rw [h]
  exact ⟨rfl, rfl⟩

/-- C6 witness: the theorem applied to a concrete environment without an
initialized client. -/
theorem create_dataset_fails_fast_without_client_witness :
    (sampleProject.create_dataset noClientEnv goodArgs).1 =
      Except.error (.clientConnectionError
        ("Failed to get client info: " ++
          PyExc.toMessage (.other "module config has no attribute _client"))) ∧
    (sampleProject.create_dataset noClientEnv goodArgs).2.1 = [] :=
  create_dataset_fails_fast_without_client sampleProject noClientEnv goodArgs
    (.other "module config has no attribute _client") rfl

/-- C10: whether it returns a Dataset or raises, `create_dataset` leaves
every field of the Project it is called on unchanged. -/
theorem create_dataset_leaves_project_unchanged :
    ∀ (p : Project) (env : Env) (args : CreateDatasetArgs),
      (p.create_dataset env args).2.2.id = p.id ∧
      (p.create_dataset env args).2.2.name = p.name ∧
      (p.create_dataset env args).2.2.description = p.description ∧
      (p.create_dataset env args).2.2.ego_car = p.ego_car ∧
      (p.create_dataset env args).2.2.ontology = p.ontology ∧
      (p.create_dataset env args).2.2.sensors = p.sensors := by
  intro p env args
  have h : (p.create_dataset env args).2.2 = p := by
    unfold Project.create_dataset
    cases env with
    | mk g => cases g <;> rfl
  rw [h]
  exact ⟨rfl, rfl, rfl, rfl, rfl, rfl⟩

/-- C4: an Attribute construction fails exactly when its type is OPTION and
its `options` are absent or empty; for every other type the construction
never fails on account of `options`. -/
theorem attribute_options_required_iff_option_type :
    ∀ (id : Option Int) (name : String) (options : Option (List AttributeOption))
      (ty : AttributeType),
      isOkE (Attribute.make id name options ty) = false ↔
        ty = AttributeType.option ∧ (options = none ∨ options = some []) := by
  intro id name options ty
  unfold Attribute.make option_data_validator
  by_cases hcond : ty = AttributeType.option ∧ optionsFalsy options = true
  · rw [if_pos hcond]
    constructor
    · intro _
      exact ⟨hcond.1, (optionsFalsy_iff options).mp hcond.2⟩
    · intro _
      rfl
  · rw [if_neg hcond]
    constructor
    · intro hfalse
      simp only [isOkE] at hfalse
      cases hfalse
    · intro hc
      exact absurd ⟨hc.1, (optionsFalsy_iff options).mpr hc.2⟩ hcond

theorem color_validator_isOk (color : String) :
    isOkE (color_validator color) = true ↔
      startsWithHash color.data = true ∧ BoundedAlnum6 (lstripHash color.data) := by
  unfold color_validator
  cases ha : startsWithHash color.data with
  | false =>
    rw [if_pos (by simp)]
    simp [isOkE]
  | true =>
    cases hb : reSearchWord6 (lstripHash color.data) with
    | false =>
      rw [if_pos (by simp)]
      simp only [isOkE]
      constructor
      · intro h; exact absurd h (by decide)
      · rintro ⟨_, hB⟩
        have hx := reSearchWord6_iff.mpr hB
        rw [hb] at hx
        exact absurd hx (by decide)
    | true =>
      rw [if_neg (by simp)]
      simp [isOkE, reSearchWord6_iff.mp hb]

/-- C2 counterexample: the string `"#ABCDEF!"` does not match the claimed
pattern `^#[0-9A-Za-z]{6}$`, yet `OntologyClass` construction accepts it
(the source uses `re.search` with `\b`-delimited sextets, not a full-string
match). -/
theorem color_pattern_claim_counterexample :
    isOkE (OntologyClass.make none "sign" "#ABCDEF!" 1 none) = true ∧
    specColorPattern "#ABCDEF!" = false := by
  exact ⟨rfl, rfl⟩

/-- C2 (amended): `OntologyClass` construction succeeds iff `color` starts
with `#` and the string obtained by dropping every leading `#` contains six
consecutive alphanumerics delimited on both sides by a word boundary.  This
accepts every string matching `^#[0-9A-Za-z]{6}$` (such as `"#AABBCC"`) and
rejects `"AABBCC"` and `"#ABC"`, but is strictly wider than that regex. -/
theorem ontology_class_color_acceptance_characterization :
    ∀ (id : Option Int) (name color : String) (rank : Int)
      (attrs : Option (List Attribute)),
      isOkE (OntologyClass.make id name color rank attrs) = true ↔
        startsWithHash color.data = true ∧ BoundedAlnum6 (lstripHash color.data) := by
  intro id name color rank attrs
  unfold OntologyClass.make
  cases hv : color_validator color with
  | error e =>
    have hch := color_validator_isOk color
    rw [hv] at hch
    simp only [isOkE] at hch ⊢
    exact hch
  | ok c =>
    have hch := color_validator_isOk color
    rw [hv] at hch
    simp only [isOkE] at hch ⊢
    exact hch

/-- C9: an unrecognized string in an enum-typed field is rejected: a
`DataSource` parses successfully exactly from `azure`, `aws` or `sdk`, and a
`Sensor` whose `type` string is not a recognized SensorKind fails with a
ValidationError at the `type` field. -/
theorem unknown_enum_string_rejected :
    (∀ s : String, (DataSource.ofString s).isSome = true ↔
        (s = "azure" ∨ s = "aws" ∨ s = "sdk")) ∧
    (∀ (name s : String), SensorType.ofString s = none →
      Sensor.fromJVal (.obj [("name", .str name), ("type", .str s)]) =
        .error (.validationError ["type"] "value is not a valid enumeration member")) := by
  constructor
  · intro s
    unfold DataSource.ofString
    split <;> simp_all
  · intro name s h
    simp [Sensor.fromJVal, optIntField, reqStrField, reqEnumField, jlookup, h,
      Bind.bind, Except.bind]

/-- C9 witness: the theorem applied to the unrecognized strings `gcs`
(DataSource) and `sonar` (Sensor type). -/
theorem unknown_enum_string_rejected_witness :
    ((DataSource.ofString "gcs").isSome = true ↔
      ("gcs" = "azure" ∨ "gcs" = "aws" ∨ "gcs" = "sdk")) ∧
    Sensor.fromJVal (.obj [("name", .str "cam0"), ("type", .str "sonar")]) =
      .error (.validationError ["type"] "value is not a valid enumeration member") :=
  ⟨unknown_enum_string_rejected.1 "gcs",
   unknown_enum_string_rejected.2 "cam0" "sonar" rfl⟩

/-- C8: an Ontology whose `classes` list contains an element failing
OntologyClass validation fails as a whole, and (for the first failing
element) the reported error is the class's own error extended with the field
name `classes` and the element's index. -/
theorem ontology_fails_on_invalid_class_with_index :
    (∀ (id : Option Int) (name : String) (it : Option OntologyImageType)
        (pt : Option OntologyPcdType) (l : List JVal),
        (∃ v ∈ l, isOkE (OntologyClass.fromJVal v) = false) →
        isOkE (Ontology.make id name it pt (some l)) = false) ∧
    (∀ (id : Option Int) (name : String) (it : Option OntologyImageType)
        (pt : Option OntologyPcdType) (pre : List JVal) (bad : JVal)
        (post : List JVal) (e : PyExc),
        (∀ v ∈ pre, isOkE (OntologyClass.fromJVal v) = true) →
        OntologyClass.fromJVal bad = .error e →
        Ontology.make id name it pt (some (pre ++ bad :: post)) =
          .error (prefixField "classes" (prefixIdx pre.length e))) := by
  constructor
  · intro id name it pt l hex
    have h := parseListIdx_error_of_mem l 0 hex
    cases hp : parseListIdx OntologyClass.fromJVal 0 l with
    | error e => simp [Ontology.make, hp, isOkE]
    | ok cs => rw [hp] at h; simp [isOkE] at h
  · intro id name it pt pre bad post e hok hbad
    have hp := parseListIdx_append_error pre 0 bad post e hok hbad
    rw [Nat.zero_add] at hp
    simp [Ontology.make, hp]

/-- C8 witness: a concrete ontology input with one valid class and one class
whose color lacks the leading `#` fails with the error located at
`classes.1.color` and naming the offending value. -/
theorem ontology_fails_on_invalid_class_with_index_witness :
    Ontology.make none "onto" none none (some [goodClassJ, badClassJ]) =
      .error (prefixField "classes" (prefixIdx 1
        (.validationError ["color"]
          ("Color field needs starts with `#` and has 6 digits behind it, get : " ++
            "AABBCC")))) :=
  ontology_fails_on_invalid_class_with_index.2 none "onto" none none
    [goodClassJ] badClassJ []
    (.validationError ["color"]
      ("Color field needs starts with `#` and has 6 digits behind it, get : " ++
        "AABBCC"))
    (fun v hv => by rw [List.mem_singleton] at hv; subst hv; rfl)
    rfl

/-- C7: constructing a `DataConfig` or a `Dataset` from a mapping with
unrecognized keys and re-serializing it preserves every unrecognized key with
its original value (looking the key up in the output equals looking it up in
the input). -/
theorem open_schema_round_trip_preserves_unknown_keys :
    (∀ (m : List (String × JVal)) (dc : DataConfig) (k : String),
        DataConfig.fromMapping m = .ok dc → k ∉ dataConfigFields →
        jlookup k dc.toMapping = jlookup k m) ∧
    (∀ (m : List (String × JVal)) (d : Dataset) (k : String),
        Dataset.fromMapping m = .ok d → k ∉ datasetFields →
        jlookup k d.toMapping = jlookup k m) := by
  constructor
  · intro m dc k h hk
    have hex := dataConfig_fromMapping_extra h
    have h1 : jlookup k dc.toMapping = jlookup k dc.extra := by
      unfold DataConfig.toMapping
      apply jlookup_append_of_none
      apply jlookup_none_of_not_mem
      exact hk
    rw [h1, hex]
    exact jlookup_filter (fun v => decide_eq_true hk) m
  · intro m d k h hk
    have hex := dataset_fromMapping_extra h
    have h1 : jlookup k d.toMapping = jlookup k d.extra := by
      unfold Dataset.toMapping
      apply jlookup_append_of_none
      apply jlookup_none_of_not_mem
      exact hk
    rw [h1, hex]
    exact jlookup_filter (fun v => decide_eq_true hk) m

/-- C7 witness: the theorem applied to concrete DataConfig and Dataset inputs
carrying the unrecognized key `custom`. -/
theorem open_schema_round_trip_preserves_unknown_keys_witness :
    jlookup "custom" sampleDC.toMapping = jlookup "custom" sampleDCMap ∧
    jlookup "custom" sampleParsedDataset.toMapping = jlookup "custom" sampleDSMap :=
  ⟨open_schema_round_trip_preserves_unknown_keys.1 sampleDCMap sampleDC "custom"
      rfl (by decide),
   open_schema_round_trip_preserves_unknown_keys.2 sampleDSMap sampleParsedDataset
      "custom" rfl (by decide)⟩
